import Mathlib

/-!
Shallow embedding of the SPIRV-Cross `Compiler` core (spirv_cross.hpp).

The header is the authority: `stream`, `set`, `get`, `maybe_get` and the
control-flow classifier predicates (`is_continue`, `is_break`,
`is_conditional`) are inline in `src/spirv_cross.hpp` and are translated
here directly.  Helpers whose bodies live outside the provided sources
(`variant_set` / `variant_get` from spirv_common.hpp, the name and
decoration accessors from spirv_cross.cpp) are modelled from the spec and
carry a doc comment saying so.

Machine integers (uint32_t ids, uint64_t masks) are modelled as `Nat`;
none of the verified operations can overflow 64 bits in a way the claims
observe, and the C++ code itself only ever sets/queries single bits.
C++ exceptions (`throw CompilerError`, `std::out_of_range` from
`std::vector::at`) are modelled with `Except String`.
-/

namespace SpirvCross

/-- Membership test of `std::unordered_set<uint32_t>::find(x) != end(...)`,
over the set's elements listed in some order. -/
def usetFind : List Nat → Nat → Bool
  | [], _ => false
  | y :: ys, x => if y = x then true else usetFind ys x

/-- The five per-function block-classification sets of `Compiler`
(spirv_cross.hpp lines 297-301). -/
structure ClassifierState where
  loop_blocks : List Nat
  continue_blocks : List Nat
  loop_merge_targets : List Nat
  selection_merge_targets : List Nat
  multiselect_merge_targets : List Nat

/-- `Compiler::is_continue` (spirv_cross.hpp lines 318-321):
`continue_blocks.find(next) != end(continue_blocks)`. -/
def is_continue (c : ClassifierState) (next : Nat) : Bool :=
  usetFind c.continue_blocks next

/-- `Compiler::is_break` (spirv_cross.hpp lines 323-327):
loop-merge target OR switch-merge target. -/
def is_break (c : ClassifierState) (next : Nat) : Bool :=
  usetFind c.loop_merge_targets next || usetFind c.multiselect_merge_targets next

/-- `Compiler::is_conditional` (spirv_cross.hpp lines 329-333):
selection-merge target AND NOT switch-merge target. -/
def is_conditional (c : ClassifierState) (next : Nat) : Bool :=
  usetFind c.selection_merge_targets next && !usetFind c.multiselect_merge_targets next

theorem usetFind_iff_mem (l : List Nat) (x : Nat) : usetFind l x = true ↔ x ∈ l := by
  induction l with
  | nil => simp [usetFind]
  | cons y ys ih =>
    by_cases h : y = x
    · simp [usetFind, h]
    · rw [show usetFind (y :: ys) x = usetFind ys x by simp [usetFind, h], ih]
      simp [List.mem_cons]
      intro hx
      exact absurd hx.symm h

/-- `Instruction` (declared in spirv_common.hpp, consumed by
`Compiler::stream`): opcode, word count, word offset, word length. -/
structure Instruction where
  op : Nat
  count : Nat
  offset : Nat
  length : Nat

/-- `Compiler::stream` (spirv_cross.hpp lines 218-229).  A returned operand
pointer `&spirv[instr.offset]` is modelled by `some instr.offset`, the null
pointer by `none`, `throw CompilerError` by `Except.error`. -/
def stream (spirv : List Nat) (instr : Instruction) : Except String (Option Nat) :=
  if instr.length = 0 then Except.ok none
  else if instr.offset + instr.length > spirv.length then
    Except.error "Compiler::stream() out of range."
  else Except.ok (some instr.offset)

/-- The discriminant of a `Variant` slot (the `Types` enum of
spirv_common.hpp): one tag per concrete SPIR kind, `tNone` for a slot that
was never bound. -/
inductive VariantType
  | tNone
  | tType
  | tVariable
  | tConstant
  | tFunction
  | tBlock
  | tUndef
  deriving DecidableEq, Repr

/-- One slot of the `ids` table.  Every concrete SPIR kind carries a
`self` field (stamped by `Compiler::set`); the payload data beyond `self`
is irrelevant to the claims and elided. -/
structure Variant where
  vtype : VariantType
  self : Nat
  deriving DecidableEq, Repr

/-- `std::vector::at(i)`: the element at `i`, or a thrown
`std::out_of_range` when `i` is at or beyond the size. -/
def vecAt {α : Type} (l : List α) (i : Nat) : Except String α :=
  match l[i]? with
  | some v => Except.ok v
  | none => Except.error "vector::at out of range"

/-- Modelled from the spec: `variant_set<T>` (spirv_common.hpp, not under
src) constructs a fresh `T` payload and binds it to the slot; the header
then stamps `var.self = id`. -/
def variant_set (k : VariantType) (_old : Variant) : Variant :=
  { vtype := k, self := 0 }

/-- Modelled from the spec: `variant_get<T>` (spirv_common.hpp, not under
src) returns the bound payload or fails hard when the slot is absent or
holds the wrong kind. -/
def variant_get (k : VariantType) (v : Variant) : Except String Variant :=
  if v.vtype = k then Except.ok v else Except.error "Bad cast"

/-- `Compiler::set<T>(id, args...)` (spirv_cross.hpp lines 243-249):
`variant_set<T>(ids.at(id), ...)` followed by `var.self = id`; returns the
updated table together with the bound payload. -/
def setId (ids : List Variant) (k : VariantType) (id : Nat) :
    Except String (List Variant × Variant) :=
  match vecAt ids id with
  | Except.error e => Except.error e
  | Except.ok old =>
    let v := { variant_set k old with self := id }
    Except.ok (ids.set id v, v)

/-- `Compiler::get<T>(id)` (spirv_cross.hpp lines 251-255):
`variant_get<T>(ids.at(id))`. -/
def getId (ids : List Variant) (k : VariantType) (id : Nat) : Except String Variant :=
  match vecAt ids id with
  | Except.error e => Except.error e
  | Except.ok v => variant_get k v

/-- `Compiler::maybe_get<T>(id)` (spirv_cross.hpp lines 257-264):
`if (ids.at(id).get_type() == T::type) return &get<T>(id); else return
nullptr;`.  The null pointer is `none`. -/
def maybeGet (ids : List Variant) (k : VariantType) (id : Nat) :
    Except String (Option Variant) :=
  match vecAt ids id with
  | Except.error e => Except.error e
  | Except.ok v =>
    if v.vtype = k then
      match getId ids k id with
      | Except.error e => Except.error e
      | Except.ok p => Except.ok (some p)
    else Except.ok none

theorem vecAt_of_lt {α : Type} (l : List α) (i : Nat) (h : i < l.length) :
    vecAt l i = Except.ok l[i] := by
  simp [vecAt, List.getElem?_eq_getElem h]

theorem vecAt_of_ge {α : Type} (l : List α) (i : Nat) (h : l.length ≤ i) :
    vecAt l i = Except.error "vector::at out of range" := by
  simp [vecAt, List.getElem?_eq_none h]

/-- Modelled from the spec: the per-ID `Meta` record (spirv_common.hpp /
spirv_cross.cpp, not under src) holds the name string (empty means "no
declared name"), the decoration bitmask (`uint64_t`, modelled as the set
bits of a `Nat`) and the per-decoration argument values (modelled as an
association list from decoration number to value). -/
structure MetaDec where
  aliasName : String
  decoration_flags : Nat
  args : List (Nat × Nat)
  deriving Repr

/-- Lookup of a decoration's stored argument value, 0 when none stored. -/
def argLookup (args : List (Nat × Nat)) (d : Nat) : Nat :=
  match args.find? (fun p => p.1 == d) with
  | some p => p.2
  | none => 0

/-- Store a decoration's argument value, replacing any previous value. -/
def argStore (args : List (Nat × Nat)) (d v : Nat) : List (Nat × Nat) :=
  (d, v) :: args.filter (fun p => p.1 != d)

/-- Modelled from the spec: `Compiler::set_decoration(id, D, v)`
(spirv_cross.cpp, not under src) sets bit D of the ID's decoration
bitmask and records v as the decoration's argument value. -/
def set_decoration (m : MetaDec) (d v : Nat) : MetaDec :=
  { m with
    decoration_flags := m.decoration_flags ||| (1 <<< d),
    args := argStore m.args d v }

/-- Modelled from the spec: `Compiler::get_decoration(id, D)`
(spirv_cross.cpp, not under src) returns the stored argument value when
bit D of the mask is set, else 0. -/
def get_decoration (m : MetaDec) (d : Nat) : Nat :=
  if m.decoration_flags.testBit d then argLookup m.args d else 0

/-- `Compiler::get_decoration_mask(id)` (declared spirv_cross.hpp lines
109-111): the decoration bitmask of the ID. -/
def get_decoration_mask (m : MetaDec) : Nat :=
  m.decoration_flags

/-- Modelled from the spec: `Compiler::unset_decoration(id, D)`
(spirv_cross.cpp, not under src) clears bit D of the mask
(`flags &= ~(1ull << D)`, modelled with `Nat.ldiff`) and clears the stored
argument value. -/
def unset_decoration (m : MetaDec) (d : Nat) : MetaDec :=
  { m with
    decoration_flags := Nat.ldiff m.decoration_flags (1 <<< d),
    args := m.args.filter (fun p => p.1 != d) }

/-- Modelled from the spec: `Compiler::get_name(id)` (spirv_cross.cpp, not
under src) returns the declared name of the ID, the empty string when none
was ever set. -/
def get_name (m : MetaDec) : String :=
  m.aliasName

/-- Modelled from the spec: `join("_", id)` (spirv_common.hpp, not under
src) concatenates its arguments into one string via an output stream. -/
def join2 (sep : String) (n : Nat) : String :=
  sep ++ toString n

/-- `Compiler::get_fallback_name(id)` (spirv_cross.hpp lines 130-133):
`join("_", id)`. -/
def get_fallback_name (id : Nat) : String :=
  join2 "_" id

/-- Claim C1: for every block id that is a member of both
`multiselect_merge_targets` (switch merge) and `selection_merge_targets`,
`is_conditional` returns false and `is_break` returns true: switch-break
takes precedence over plain if/else join classification. -/
theorem claim_C1 (c : ClassifierState) (id : Nat)
    (hm : id ∈ c.multiselect_merge_targets)
    (hs : id ∈ c.selection_merge_targets) :
    is_conditional c id = false ∧ is_break c id = true := by
  have hm2 : usetFind c.multiselect_merge_targets id = true :=
    (usetFind_iff_mem _ _).mpr hm
  have hs2 : usetFind c.selection_merge_targets id = true :=
    (usetFind_iff_mem _ _).mpr hs
  constructor
  · simp [is_conditional, hm2, hs2]
  · simp [is_break, hm2]

/-- Witness for claim C1 at a concrete classifier state: block 9 is both a
switch-merge and a selection-merge target. -/
theorem claim_C1_witness :
    is_conditional ⟨[], [], [], [9], [9]⟩ 9 = false ∧
      is_break ⟨[], [], [], [9], [9]⟩ 9 = true :=
  claim_C1 ⟨[], [], [], [9], [9]⟩ 9 (by decide) (by decide)

/-- Claim C2 counterexample: with two loops in the function whose continue
targets are 5 (the enclosing loop's) and 7 (another loop's),
`is_continue 7` is true even though 7 is not the enclosing loop's continue
target, refuting the claimed "if and only if". -/
theorem claim_C2_counterexample :
    is_continue ⟨[], [5, 7], [], [], []⟩ 7 = true ∧ (7 : Nat) ≠ 5 ∧
      5 ∈ (⟨[], [5, 7], [], [], []⟩ : ClassifierState).continue_blocks :=
  ⟨by decide, by decide, by decide⟩

/-- Claim C2 amended: `is_continue(id)` returns true iff id is the
continue target of some loop of the function, i.e. iff id is a member of
the `continue_blocks` set; the code does not single out the enclosing
loop's continue target. -/
theorem claim_C2_amended (c : ClassifierState) (id : Nat) :
    is_continue c id = true ↔ id ∈ c.continue_blocks :=
  usetFind_iff_mem c.continue_blocks id

/-- Claim C4 counterexample: a zero-length instruction whose offset (2)
plus length (0) is within the 5-word buffer makes `stream` return the
null pointer, not a pointer to the operand words at offset 2 as the claim
requires of every in-bounds instruction. -/
theorem claim_C4_counterexample :
    2 + 0 ≤ List.length ([0, 0, 0, 0, 0] : List Nat) ∧
      stream [0, 0, 0, 0, 0] ⟨0, 0, 2, 0⟩ = Except.ok none ∧
      (Except.ok none : Except String (Option Nat)) ≠ Except.ok (some 2) :=
  ⟨by decide, rfl, by simp⟩

/-- Claim C4 amended: for every instruction of nonzero word length,
resolving the operand words fails with the bounds error exactly when
offset plus length exceeds the buffer size, and otherwise returns the
pointer to the operand words at that offset; zero-length instructions
instead return the null pointer (see claim C10). -/
theorem claim_C4_amended (spirv : List Nat) (instr : Instruction)
    (h : instr.length ≠ 0) :
    (instr.offset + instr.length > spirv.length →
      stream spirv instr = Except.error "Compiler::stream() out of range.") ∧
    (instr.offset + instr.length ≤ spirv.length →
      stream spirv instr = Except.ok (some instr.offset)) := by
  constructor
  · intro hb
    simp [stream, h, hb]
  · intro hb
    have hn : ¬ (instr.offset + instr.length > spirv.length) := by omega
    simp [stream, h, hn]

/-- Witness for the amended claim C4: a 4-word instruction at offset 2 of
a 3-word buffer trips the bounds error; a 3-word instruction at offset 1
of a 5-word buffer resolves to offset 1. -/
theorem claim_C4_amended_witness :
    stream [0, 0, 0] ⟨0, 0, 2, 4⟩ = Except.error "Compiler::stream() out of range." ∧
      stream [0, 0, 0, 0, 0] ⟨0, 0, 1, 3⟩ = Except.ok (some 1) :=
  ⟨(claim_C4_amended [0, 0, 0] ⟨0, 0, 2, 4⟩ (by decide)).1 (by decide),
   (claim_C4_amended [0, 0, 0, 0, 0] ⟨0, 0, 1, 3⟩ (by decide)).2 (by decide)⟩

/-- Claim C10: for every instruction whose word length is zero, `stream`
returns the null operand pointer without performing any bounds check, even
when the offset lies beyond the end of the word buffer. -/
theorem claim_C10 (spirv : List Nat) (instr : Instruction)
    (h : instr.length = 0) :
    stream spirv instr = Except.ok none := by
  simp [stream, h]

/-- Witness for claim C10: a zero-length instruction whose offset 10 lies
far beyond the 3-word buffer still yields the null pointer, no error. -/
theorem claim_C10_witness :
    stream [1, 2, 3] ⟨0, 0, 10, 0⟩ = Except.ok none :=
  claim_C10 [1, 2, 3] ⟨0, 0, 10, 0⟩ rfl

/-- Claim C3 counterexample: for an ID at or beyond the module bound (here
id 0 against an empty ID table) `maybe_get` does fail: `ids.at(id)` throws
`std::out_of_range`, refuting "never fails ... including IDs at or beyond
the module bound". -/
theorem claim_C3_counterexample :
    maybeGet [] VariantType.tVariable 0 = Except.error "vector::at out of range" :=
  rfl

/-- Claim C3 amended: for every ID strictly below the module bound,
`maybe_get` never fails; in particular for an ID never bound (or bound to
another kind) it returns absent.  For an ID at or beyond the bound it
fails with an out-of-range error. -/
theorem claim_C3_amended (ids : List Variant) (k : VariantType) (id : Nat) :
    (∀ _ : id < ids.length, ∃ r, maybeGet ids k id = Except.ok r) ∧
    (∀ h : id < ids.length, ids[id].vtype ≠ k → maybeGet ids k id = Except.ok none) ∧
    (ids.length ≤ id → maybeGet ids k id = Except.error "vector::at out of range") := by
  refine ⟨?_, ?_, ?_⟩
  · intro h
    by_cases hv : ids[id].vtype = k
    · exact ⟨some ids[id], by simp [maybeGet, getId, vecAt_of_lt ids id h, variant_get, hv]⟩
    · exact ⟨none, by simp [maybeGet, vecAt_of_lt ids id h, hv]⟩
  · intro h hv
    simp [maybeGet, vecAt_of_lt ids id h, hv]
  · intro h
    simp [maybeGet, vecAt_of_ge ids id h]

/-- Witness for the amended claim C3: a never-bound slot yields absent; an
ID beyond the bound yields the out-of-range error. -/
theorem claim_C3_amended_witness :
    maybeGet [⟨VariantType.tNone, 0⟩] VariantType.tVariable 0 = Except.ok none ∧
      maybeGet [] VariantType.tVariable 5 = Except.error "vector::at out of range" :=
  ⟨(claim_C3_amended [⟨VariantType.tNone, 0⟩] VariantType.tVariable 0).2.1
      (by decide) (by decide),
   (claim_C3_amended [] VariantType.tVariable 5).2.2 (by decide)⟩

/-- Claim C5: for every valid (id, kind) pair bound via `set`, a
subsequent `get` of the same kind returns a payload whose `self` field
equals id. -/
theorem claim_C5 (ids : List Variant) (k : VariantType) (id : Nat)
    (h : id < ids.length) :
    ∃ tbl v, setId ids k id = Except.ok (tbl, v) ∧
      getId tbl k id = Except.ok v ∧ v.self = id := by
  refine ⟨ids.set id ⟨k, id⟩, ⟨k, id⟩, ?_, ?_, rfl⟩
  · simp [setId, vecAt_of_lt ids id h, variant_set]
  · have hlen : id < (ids.set id ⟨k, id⟩).length := by simp [h]
    simp [getId, vecAt_of_lt _ id hlen, variant_get]

/-- Witness for claim C5: binding kind `tVariable` to id 0 of a one-slot
table and reading it back. -/
theorem claim_C5_witness :
    ∃ tbl v,
      setId [⟨VariantType.tNone, 0⟩] VariantType.tVariable 0 = Except.ok (tbl, v) ∧
        getId tbl VariantType.tVariable 0 = Except.ok v ∧ v.self = 0 :=
  claim_C5 [⟨VariantType.tNone, 0⟩] VariantType.tVariable 0 (by decide)

/-- Claim C6: calling `set` with an ID at or beyond the module bound (the
size of the `ids` table) fails with an out-of-range error; no grown table
is ever produced. -/
theorem claim_C6 (ids : List Variant) (k : VariantType) (id : Nat)
    (h : ids.length ≤ id) :
    setId ids k id = Except.error "vector::at out of range" := by
  simp [setId, vecAt_of_ge ids id h]

/-- Witness for claim C6: binding id 0 against an empty ID table fails. -/
theorem claim_C6_witness :
    setId [] VariantType.tVariable 0 = Except.error "vector::at out of range" :=
  claim_C6 [] VariantType.tVariable 0 (by decide)

/-- Claim C7: for every ID below the bound whose slot is unbound or bound
to a kind different from the requested one, `get` fails rather than
returning a payload, while `maybe_get` returns absent. -/
theorem claim_C7 (ids : List Variant) (k : VariantType) (id : Nat)
    (h : id < ids.length) (hv : ids[id].vtype ≠ k) :
    getId ids k id = Except.error "Bad cast" ∧
      maybeGet ids k id = Except.ok none := by
  constructor
  · simp [getId, vecAt_of_lt ids id h, variant_get, hv]
  · simp [maybeGet, vecAt_of_lt ids id h, hv]

/-- Witness for claim C7: an unbound slot and a slot bound to `tBlock`,
both queried as `tVariable`. -/
theorem claim_C7_witness :
    (getId [⟨VariantType.tNone, 0⟩] VariantType.tVariable 0 = Except.error "Bad cast" ∧
      maybeGet [⟨VariantType.tNone, 0⟩] VariantType.tVariable 0 = Except.ok none) ∧
    (getId [⟨VariantType.tBlock, 0⟩] VariantType.tVariable 0 = Except.error "Bad cast" ∧
      maybeGet [⟨VariantType.tBlock, 0⟩] VariantType.tVariable 0 = Except.ok none) :=
  ⟨claim_C7 [⟨VariantType.tNone, 0⟩] VariantType.tVariable 0 (by decide) (by decide),
   claim_C7 [⟨VariantType.tBlock, 0⟩] VariantType.tVariable 0 (by decide) (by decide)⟩

theorem argLookup_argStore (args : List (Nat × Nat)) (d v : Nat) :
    argLookup (argStore args d v) d = v := by
  simp [argLookup, argStore, List.find?]

/-- Claim C8: for every ID whose name was never set, `get_name` returns
the empty string and `get_fallback_name` returns a non-empty string that
is a function of the ID alone. -/
theorem claim_C8 (id : Nat) (m : MetaDec) (h : m.aliasName = "") :
    get_name m = "" ∧ get_fallback_name id ≠ "" := by
  constructor
  · exact h
  · intro he
    simp only [get_fallback_name, join2] at he
    have h2 := congrArg String.length he
    rw [String.length_append] at h2
    have l1 : ("_" : String).length = 1 := rfl
    have l0 : ("" : String).length = 0 := rfl
    omega

/-- Witness for claim C8 at id 3 with a meta record holding no name. -/
theorem claim_C8_witness :
    get_name ⟨"", 0, []⟩ = "" ∧ get_fallback_name 3 ≠ "" :=
  claim_C8 3 ⟨"", 0, []⟩ rfl

/-- Claim C9: decoration round-trip.  After `set_decoration(id, D, v)`,
`get_decoration(id, D)` returns v and the decoration mask has bit D set;
after `unset_decoration(id, D)` the stored value is cleared
(`get_decoration` returns 0) and bit D of the mask is cleared. -/
theorem claim_C9 (m : MetaDec) (d v : Nat) :
    get_decoration (set_decoration m d v) d = v ∧
    Nat.testBit (get_decoration_mask (set_decoration m d v)) d = true ∧
    get_decoration (unset_decoration (set_decoration m d v) d) d = 0 ∧
    Nat.testBit (get_decoration_mask (unset_decoration (set_decoration m d v) d)) d
      = false := by
  have hset : Nat.testBit (m.decoration_flags ||| (1 <<< d)) d = true := by
    rw [Nat.one_shiftLeft, Nat.testBit_lor, Nat.testBit_two_pow_self]
    simp
  have hunset :
      Nat.testBit (Nat.ldiff (m.decoration_flags ||| (1 <<< d)) (1 <<< d)) d = false := by
    rw [Nat.one_shiftLeft, Nat.testBit_ldiff, Nat.testBit_two_pow_self]
    simp
  refine ⟨?_, ?_, ?_, ?_⟩
  · simp [get_decoration, set_decoration, hset, argLookup_argStore]
  · simp only [get_decoration_mask, set_decoration]
    exact hset
  · simp [get_decoration, unset_decoration, set_decoration, hunset]
  · simp only [get_decoration_mask, unset_decoration, set_decoration]
    exact hunset

end SpirvCross
